import Mathlib

/-!
Shallow embedding of the two list-view controller overrides in this repository:

* `sync_js_button.js` — `SaatchiAccruedRevenueListController.OnTestClick`:
  a confirm → remote-call → branch-on-result → notify → refresh workflow.
* `part_000` (unnamed module) — `UnfoldAllListController.onUnfoldAllClick` /
  `onFoldAllClick`: batch clicking of grouped list headers discovered by DOM query.

The JavaScript dynamic values that flow through `OnTestClick` are embedded as
`JsValue`; JavaScript truthiness, property access on the `type` field, numeric
coercion for the comparison `result > 0`, and template-literal stringification
are each given as explicit functions mirroring ECMAScript semantics on this
value universe.  Number-typed remote results are modelled as integers (the
procedure returns a record count); the ToNumber coercion of strings implements
the full StringNumericLiteral grammar — sign, fraction, exponent, the 0x/0o/0b
integer literals, Infinity — producing NaN, an infinity, or an exact fraction
(see `JsNumber` for the one caveat about IEEE-754 rounding).

The observable behaviour of one `OnTestClick` run is a `Trace`: the ordered
list of host-service effects (dialog add, ORM call, action dispatch,
notification, model reload, forced render) plus the error, if any, that the
confirm callback propagates to its caller.
-/

/-- A JavaScript value as far as the sync workflow inspects one: the remote
result is either a primitive or an object whose only control-flow-relevant
property is `type` — either absent (`objNoType`) or present with some value
(`objWithType t`). -/
inductive JsValue where
  | undefined : JsValue
  | null : JsValue
  | bool (b : Bool) : JsValue
  | num (n : Int) : JsValue
  | str (s : String) : JsValue
  | objNoType : JsValue
  | objWithType (typeAttr : JsValue) : JsValue
deriving DecidableEq, Repr

/-- ECMAScript ToBoolean on the embedded value universe. -/
def truthy : JsValue → Bool
  | .undefined => false
  | .null => false
  | .bool b => b
  | .num n => n != 0
  | .str s => s != ""
  | .objNoType => true
  | .objWithType _ => true

/-- Property access `v.type`: the object case reads the attribute, every other
value yields `undefined` (the workflow only evaluates it behind the
short-circuit `result && result.type`, so the throwing null/undefined cases are
never reached; a total `undefined` there is harmless and falsy). -/
def jsGetType : JsValue → JsValue
  | .objWithType t => t
  | _ => .undefined

/-- A JavaScript number as the ToNumber coercion can produce one here: NaN,
one of the two infinities, or a finite value represented exactly as the
fraction num/den.  The denominator is a positive power of ten (or 1) by
construction, so the value's sign is the numerator's sign — which is all the
comparison with 0 consults.  Exact rational values elide IEEE-754 rounding;
rounding a double preserves the sign of every value except nonzero
magnitudes below the smallest subnormal, which are far outside anything this
workflow handles. -/
inductive JsNumber where
  | nan : JsNumber
  | posInf : JsNumber
  | negInf : JsNumber
  | finite (num : Int) (den : Nat) : JsNumber
deriving DecidableEq, Repr

/-- Numeric value of a digit character (0-9, a-f, A-F). -/
def digitVal (c : Char) : Nat :=
  if c.isDigit then c.toNat - '0'.toNat
  else if 'a' ≤ c ∧ c ≤ 'f' then c.toNat - 'a'.toNat + 10
  else if 'A' ≤ c ∧ c ≤ 'F' then c.toNat - 'A'.toNat + 10
  else 0

/-- Is the character a digit of the given base (2, 8, 10 or 16)? -/
def isDigitBase (base : Nat) (c : Char) : Bool :=
  (c.isDigit && decide (c.toNat - '0'.toNat < base)) ||
  (base == 16 && (('a' ≤ c && c ≤ 'f') || ('A' ≤ c && c ≤ 'F')))

/-- Value of a digit string in the given base. -/
def digitsVal (base : Nat) (cs : List Char) : Nat :=
  cs.foldl (fun a c => a * base + digitVal c) 0

/-- Strip leading and trailing whitespace (the ASCII whitespace of
Char.isWhitespace; the remaining ECMAScript StrWhiteSpaceChars are exotic
Unicode spaces). -/
def trimChars (cs : List Char) : List Char :=
  ((cs.dropWhile Char.isWhitespace).reverse.dropWhile Char.isWhitespace).reverse

/-- ECMAScript DecimalDigits [. DecimalDigits], . DecimalDigits or
DecimalDigits: value as an exact fraction numerator/denominator, or none
when the shape is invalid. -/
def parseDecMantissa (cs : List Char) : Option (Nat × Nat) :=
  match cs.span (fun c => c != '.') with
  | (ip, []) =>
    if ip ≠ [] ∧ ip.all Char.isDigit then some (digitsVal 10 ip, 1) else none
  | (ip, _ :: fp) =>
    if (ip ≠ [] ∨ fp ≠ []) ∧ ip.all Char.isDigit ∧ fp.all Char.isDigit then
      some (digitsVal 10 (ip ++ fp), 10 ^ fp.length)
    else none

/-- ECMAScript ExponentPart after the e/E: optionally signed decimal
digits. -/
def parseExponent (cs : List Char) : Option Int :=
  let core : Int × List Char :=
    match cs with
    | '+' :: r => (1, r)
    | '-' :: r => (-1, r)
    | r => (1, r)
  if core.2 ≠ [] ∧ core.2.all Char.isDigit then
    some (core.1 * (digitsVal 10 core.2 : Int))
  else none

/-- Scale the fraction by ten to the signed exponent. -/
def applyExponent (nd : Nat × Nat) (k : Int) : Nat × Nat :=
  match k with
  | .ofNat m => (nd.1 * 10 ^ m, nd.2)
  | .negSucc m => (nd.1, nd.2 * 10 ^ (m + 1))

/-- ECMAScript StrUnsignedDecimalLiteral without the Infinity production:
mantissa with an optional exponent part split at the first e/E. -/
def parseStrDecimal (cs : List Char) : Option (Nat × Nat) :=
  match cs.span (fun c => c != 'e' && c != 'E') with
  | (mant, []) => parseDecMantissa mant
  | (mant, _ :: ecs) =>
    match parseDecMantissa mant, parseExponent ecs with
    | some nd, some k => some (applyExponent nd k)
    | _, _ => none

/-- ECMAScript StrDecimalLiteral: an optional sign applied to Infinity or to
an unsigned decimal literal. -/
def signedDecimal (cs : List Char) : JsNumber :=
  let core : Int × List Char :=
    match cs with
    | '+' :: r => (1, r)
    | '-' :: r => (-1, r)
    | r => (1, r)
  if core.2 = "Infinity".toList then
    if core.1 = 1 then .posInf else .negInf
  else
    match parseStrDecimal core.2 with
    | some nd => .finite (core.1 * (nd.1 : Int)) nd.2
    | none => .nan

/-- ECMAScript ToNumber on strings (the StringNumericLiteral grammar):
whitespace-trimmed; empty is 0; the unsigned non-decimal integer literals
0x…, 0o…, 0b…; otherwise an optionally signed decimal literal or Infinity;
anything else is NaN. -/
def jsStringToNumber (s : String) : JsNumber :=
  match trimChars s.toList with
  | [] => .finite 0 1
  | '0' :: c :: rest =>
    if c = 'x' ∨ c = 'X' then
      if rest ≠ [] ∧ rest.all (isDigitBase 16) then .finite (digitsVal 16 rest) 1
      else .nan
    else if c = 'o' ∨ c = 'O' then
      if rest ≠ [] ∧ rest.all (isDigitBase 8) then .finite (digitsVal 8 rest) 1
      else .nan
    else if c = 'b' ∨ c = 'B' then
      if rest ≠ [] ∧ rest.all (isDigitBase 2) then .finite (digitsVal 2 rest) 1
      else .nan
    else signedDecimal ('0' :: c :: rest)
  | cs => signedDecimal cs

/-- ECMAScript ToNumber on the embedded value universe.  A plain object has
no custom valueOf, so it coerces via the string "[object Object]" to NaN. -/
def jsToNumber : JsValue → JsNumber
  | .undefined => .nan
  | .null => .finite 0 1
  | .bool b => .finite (if b then 1 else 0) 1
  | .num n => .finite n 1
  | .str s => jsStringToNumber s
  | .objNoType => .nan
  | .objWithType _ => .nan

/-- The comparison `result > 0` of the success branch: coerce, then compare;
NaN compares false, and a finite fraction is positive iff its numerator is
(denominators are positive by construction). -/
def jsGtZero (v : JsValue) : Bool :=
  match jsToNumber v with
  | .finite num _ => decide (0 < num)
  | .posInf => true
  | .negInf => false
  | .nan => false

/-- ECMAScript ToString, as used by the template literal in the success
notification. -/
def jsToString : JsValue → String
  | .undefined => "undefined"
  | .null => "null"
  | .bool b => if b then "true" else "false"
  | .num n => toString n
  | .str s => s
  | .objNoType => "[object Object]"
  | .objWithType _ => "[object Object]"

/-- One observable host-service effect of the workflow.  `ormCall` records the
model name, the method name and the positional-argument list (each positional
argument at this call site is a list of record ids). -/
inductive Event where
  | dialogAdd (title body : String) : Event
  | ormCall (model method : String) (args : List (List Nat)) : Event
  | doAction (v : JsValue) : Event
  | notify (message ntype title : String) : Event
  | modelLoad : Event
  | render (force : Bool) : Event
deriving DecidableEq, Repr

/-- The observable outcome of one run: the ordered effects, and the error (if
any) the async confirm callback propagates to its caller. -/
structure Trace where
  events : List Event
  error : Option String
deriving DecidableEq, Repr

/-- Which dialog button the user presses (the dialog service invokes exactly
one of the two callbacks). -/
inductive UserChoice where
  | confirm : UserChoice
  | cancel : UserChoice
deriving DecidableEq, Repr

/-- How the awaited `orm.call` settles: a resolved value or a rejection. -/
inductive RemoteOutcome where
  | success (v : JsValue) : RemoteOutcome
  | failure (e : String) : RemoteOutcome
deriving DecidableEq, Repr

/-- Title of the confirmation dialog. -/
def confirmDialogTitle : String := "Confirm Action"

/-- Body of the confirmation dialog. -/
def confirmDialogBody : String :=
  "Are you sure you want to sync new records for accrual? This will process all eligible sale orders."

/-- The one ORM-call effect of the workflow: model name, method name, and the
positional-argument list, which at this call site is the one-element list
whose element is the empty list of record ids (the source passes an empty
list of IDs as first argument). -/
def syncOrmCallEvent : Event :=
  Event.ormCall "saatchi.accrued_revenue" "sync_new_records_for_accrual" [[]]

/-- The anonymous async `confirm` callback of `OnTestClick`: issue the ORM
call; on rejection the await rethrows, so nothing further runs and the error
propagates; on resolution branch on the result shape, then unconditionally
reload the model root and force a render. -/
def confirmCallback (outcome : RemoteOutcome) : Trace :=
  let callEv := syncOrmCallEvent
  match outcome with
  | .failure e => ⟨[callEv], some e⟩
  | .success result =>
    let branch :=
      if truthy result && truthy (jsGetType result) then
        [Event.doAction result]
      else if jsGtZero result then
        [Event.notify
          ("Successfully created " ++ jsToString result ++
            " new draft for accrual.")
          "success" "Success!"]
      else
        [Event.notify "No new records were created for accrual." "info" "Info"]
    ⟨callEv :: branch ++ [Event.modelLoad, Event.render true], none⟩

/-- `OnTestClick`: add the confirmation dialog; the dialog service then runs
exactly one of the two callbacks according to the user's choice (the cancel
callback does nothing). -/
def OnTestClick (choice : UserChoice) (outcome : RemoteOutcome) : Trace :=
  let dlg := Event.dialogAdd confirmDialogTitle confirmDialogBody
  match choice with
  | .cancel => ⟨[dlg], none⟩
  | .confirm =>
    let t := confirmCallback outcome
    ⟨dlg :: t.events, t.error⟩

/-- Recognise an ORM-call effect. -/
def isOrmCallEvent : Event → Bool
  | .ormCall _ _ _ => true
  | _ => false

/-- Recognise a notification effect. -/
def isNotifyEvent : Event → Bool
  | .notify _ _ _ => true
  | _ => false

/-- Recognise an action-dispatch effect. -/
def isDoActionEvent : Event → Bool
  | .doAction _ => true
  | _ => false

/-!
Embedding of `UnfoldAllListController` (`part_000`).

A rendered document is a list of elements; for each element we record its id
(to identify which elements receive synthetic clicks, and in which order),
the CSS classes on the element itself, and the CSS classes occurring on its
descendants (all that `querySelector` is used for here is a null test for a
descendant bearing a given class).
-/

/-- A rendered DOM element, as far as the fold controller inspects one. -/
structure Element where
  id : Nat
  classes : List String
  descendantClasses : List String
deriving DecidableEq, Repr

/-- The compound class selector ".o_group_header.o_group_has_content": the
element must bear both classes. -/
def matchesGroupHeaderSel (e : Element) : Bool :=
  e.classes.contains "o_group_header" && e.classes.contains "o_group_has_content"

/-- `document.querySelectorAll('.o_group_header.o_group_has_content')`,
returned in document order. -/
def querySelectorAllGroupHeaders (doc : List Element) : List Element :=
  doc.filter matchesGroupHeaderSel

/-- `header.querySelector('.fa-caret-…')` used as a null test: does the
element have a descendant bearing the given class? -/
def hasDescendantClass (cls : String) (e : Element) : Bool :=
  e.descendantClasses.contains cls

/-- `onUnfoldAllClick`: select the content-bearing group headers, keep those
with a collapsed marker (a fa-caret-right descendant), and click each in
order; the result is the ordered list of clicked element ids. -/
def onUnfoldAllClick (doc : List Element) : List Nat :=
  let groupHeaders := querySelectorAllGroupHeaders doc
  let foldedHeaders := groupHeaders.filter (hasDescendantClass "fa-caret-right")
  foldedHeaders.map Element.id

/-- `onFoldAllClick`: the dual, keyed on the expanded marker (a fa-caret-down
descendant). -/
def onFoldAllClick (doc : List Element) : List Nat :=
  let groupHeaders := querySelectorAllGroupHeaders doc
  let unfoldedHeaders := groupHeaders.filter (hasDescendantClass "fa-caret-down")
  unfoldedHeaders.map Element.id

/-- A collapsed content-bearing group header. -/
def sampleHeaderFolded : Element :=
  ⟨0, ["o_group_header", "o_group_has_content"], ["fa-caret-right"]⟩

/-- An expanded content-bearing group header. -/
def sampleHeaderUnfolded : Element :=
  ⟨1, ["o_group_header", "o_group_has_content"], ["fa-caret-down"]⟩

/-- A collapsed group header without the content class (excluded by the
selector). -/
def sampleHeaderNoContent : Element :=
  ⟨2, ["o_group_header"], ["fa-caret-right"]⟩

/-- A small concrete grouped-list document. -/
def sampleDoc : List Element :=
  [sampleHeaderFolded, sampleHeaderUnfolded, sampleHeaderNoContent]

/-- A container element that is not a group header but — as a common
ancestor of a folded and an unfolded group — has descendants bearing both
caret classes. -/
def sampleContainer : Element :=
  ⟨3, ["o_list_view"], ["fa-caret-right", "fa-caret-down"]⟩

/-- A document with one folded and one unfolded group under a common
container: the realistic mixed-state page. -/
def sampleDocMixed : List Element :=
  [sampleContainer, sampleHeaderFolded, sampleHeaderUnfolded, sampleHeaderNoContent]

/-!
Theorems about the sync workflow.
-/

/-- Claim C1, counterexample: with a confirmed trigger whose remote call
resolves to an action object, the trace does contain the model reload and the
forced render — the source has no early return in the action branch, so the
claim that the reload and re-render are skipped there is false. -/
theorem onTestClick_action_branch_reload_occurs_cex :
    Event.doAction (.objWithType (.str "ir.actions.act_window")) ∈
      (OnTestClick .confirm
        (.success (.objWithType (.str "ir.actions.act_window")))).events ∧
    Event.modelLoad ∈ (OnTestClick .confirm
        (.success (.objWithType (.str "ir.actions.act_window")))).events ∧
    Event.render true ∈ (OnTestClick .confirm
        (.success (.objWithType (.str "ir.actions.act_window")))).events := by
  decide

/-- Claim C1 as amended: when the confirmed remote call resolves to a value
with a truthy type field, the workflow forwards it to the action service and
then — exactly as in every other confirmed branch — reloads the record set
and forces a re-render; the full trace is dialog, ORM call, action dispatch,
model load, render. -/
theorem onTestClick_action_branch_reloads_and_renders (v : JsValue)
    (h : (truthy v && truthy (jsGetType v)) = true) :
    (OnTestClick .confirm (.success v)).events =
      [Event.dialogAdd confirmDialogTitle confirmDialogBody,
       syncOrmCallEvent,
       Event.doAction v, Event.modelLoad, Event.render true] := by
  simp [OnTestClick, confirmCallback, h]

/-- Witness for the amended claim C1 at the concrete action object. -/
theorem onTestClick_action_branch_reloads_and_renders_witness :
    (truthy (JsValue.objWithType (.str "ir.actions.act_window")) &&
      truthy (jsGetType (JsValue.objWithType (.str "ir.actions.act_window")))) = true ∧
    (OnTestClick .confirm
        (.success (.objWithType (.str "ir.actions.act_window")))).events =
      [Event.dialogAdd confirmDialogTitle confirmDialogBody,
       syncOrmCallEvent,
       Event.doAction (.objWithType (.str "ir.actions.act_window")),
       Event.modelLoad, Event.render true] :=
  ⟨by decide,
    onTestClick_action_branch_reloads_and_renders
      (.objWithType (.str "ir.actions.act_window")) (by decide)⟩

/-- Claim C2, counterexample: the positional-argument list of the one ORM
call is not empty — it is the one-element list holding the empty list of
record ids, so an ORM-call event with an empty argument list never occurs in
the trace. -/
theorem onTestClick_positional_args_nonempty_cex :
    Event.ormCall "saatchi.accrued_revenue" "sync_new_records_for_accrual" [] ∉
      (OnTestClick .confirm (.success (.num 0))).events ∧
    Event.ormCall "saatchi.accrued_revenue" "sync_new_records_for_accrual" [[]] ∈
      (OnTestClick .confirm (.success (.num 0))).events := by
  decide

/-- Claim C2 as amended: for every confirmed trigger, whatever the remote
outcome, exactly one ORM call is issued, to method
sync_new_records_for_accrual on model saatchi.accrued_revenue, and its
positional-argument list is the one-element list whose element is the empty
list of record ids. -/
theorem onTestClick_single_orm_call_fixed_args (outcome : RemoteOutcome) :
    (OnTestClick .confirm outcome).events.filter isOrmCallEvent =
      [Event.ormCall "saatchi.accrued_revenue"
        "sync_new_records_for_accrual" [[]]] := by
  cases outcome with
  | failure e => rfl
  | success v =>
    simp only [OnTestClick, confirmCallback]
    split
    · rfl
    · split <;> rfl

/-- Claim C3: a confirmed trigger whose remote call resolves to a positive
number n yields exactly the trace dialog, ORM call, one success notification
interpolating n, model load, render — in that order, so the single success
notification precedes the reload. -/
theorem onTestClick_positive_count_success_notification (n : Int) (h : 0 < n) :
    (OnTestClick .confirm (.success (.num n))).events =
      [Event.dialogAdd confirmDialogTitle confirmDialogBody,
       syncOrmCallEvent,
       Event.notify
         ("Successfully created " ++ toString n ++ " new draft for accrual.")
         "success" "Success!",
       Event.modelLoad, Event.render true] := by
  have h1 : (truthy (JsValue.num n) && truthy (jsGetType (JsValue.num n))) = false := by
    simp [truthy, jsGetType]
  have h2 : jsGtZero (JsValue.num n) = true := by
    simp [jsGtZero, jsToNumber]
    exact h
  simp [OnTestClick, confirmCallback, h1, h2, jsToString]

/-- Witness for claim C3 at the result 5, with the interpolated message as a
literal. -/
theorem onTestClick_positive_count_success_notification_witness :
    (0:Int) < 5 ∧
    (OnTestClick .confirm (.success (.num 5))).events =
      [Event.dialogAdd confirmDialogTitle confirmDialogBody,
       syncOrmCallEvent,
       Event.notify "Successfully created 5 new draft for accrual."
         "success" "Success!",
       Event.modelLoad, Event.render true] :=
  ⟨by decide, onTestClick_positive_count_success_notification 5 (by decide)⟩

/-- Claim C4, counterexample: the remote result true is neither an object
with a type field nor a number, yet JavaScript numeric coercion sends it to
the success branch (true > 0 holds), so the trace has zero info notifications
— refuting the claim that every such result yields exactly one. -/
theorem onTestClick_truthy_coercion_skips_info_cex :
    (OnTestClick .confirm (.success (.bool true))).events.filter isNotifyEvent =
      [Event.notify "Successfully created true new draft for accrual."
        "success" "Success!"] ∧
    Event.notify "No new records were created for accrual." "info" "Info" ∉
      (OnTestClick .confirm (.success (.bool true))).events := by
  decide

/-- Claim C4 as amended: a confirmed result that neither has a truthy type
field nor coerces to a number greater than zero — this covers 0, null,
undefined, false, the empty string, non-numeric strings and plain objects,
but not values such as true or numeric strings, which coerce positive and
take the success branch — yields exactly one info notification with the
fixed message, followed by the model reload and render. -/
theorem onTestClick_noncreation_info_notification (v : JsValue)
    (h1 : (truthy v && truthy (jsGetType v)) = false)
    (h2 : jsGtZero v = false) :
    (OnTestClick .confirm (.success v)).events =
      [Event.dialogAdd confirmDialogTitle confirmDialogBody,
       syncOrmCallEvent,
       Event.notify "No new records were created for accrual." "info" "Info",
       Event.modelLoad, Event.render true] := by
  simp [OnTestClick, confirmCallback, h1, h2]

/-- Witness for the amended claim C4 at the result 0. -/
theorem onTestClick_noncreation_info_notification_witness :
    (truthy (JsValue.num 0) && truthy (jsGetType (JsValue.num 0))) = false ∧
    jsGtZero (JsValue.num 0) = false ∧
    (OnTestClick .confirm (.success (.num 0))).events =
      [Event.dialogAdd confirmDialogTitle confirmDialogBody,
       syncOrmCallEvent,
       Event.notify "No new records were created for accrual." "info" "Info",
       Event.modelLoad, Event.render true] :=
  ⟨by decide, by decide,
    onTestClick_noncreation_info_notification (.num 0) (by decide) (by decide)⟩

/-- Claim C5: cancelling the confirmation prompt produces no ORM call, no
notification, no model reload and no render, whatever the remote outcome
would have been, and no error is propagated. -/
theorem onTestClick_cancel_no_effects (outcome : RemoteOutcome) :
    (OnTestClick .cancel outcome).events.filter isOrmCallEvent = [] ∧
    (OnTestClick .cancel outcome).events.filter isNotifyEvent = [] ∧
    Event.modelLoad ∉ (OnTestClick .cancel outcome).events ∧
    (∀ b : Bool, Event.render b ∉ (OnTestClick .cancel outcome).events) ∧
    (OnTestClick .cancel outcome).error = none := by
  refine ⟨rfl, rfl, ?_, ?_, rfl⟩
  · simp [OnTestClick]
  · intro b
    simp [OnTestClick]

/-- Claim C6: when the confirmed remote call resolves to an object whose
type field is truthy, the action service receives exactly that object, and
no notification occurs anywhere in the trace (in particular none before the
model reload). -/
theorem onTestClick_action_object_forwarded_unmodified (t : JsValue)
    (h : truthy t = true) :
    (OnTestClick .confirm (.success (.objWithType t))).events =
      [Event.dialogAdd confirmDialogTitle confirmDialogBody,
       syncOrmCallEvent,
       Event.doAction (.objWithType t), Event.modelLoad, Event.render true] ∧
    (OnTestClick .confirm (.success (.objWithType t))).events.filter
      isNotifyEvent = [] := by
  have h1 : (truthy (JsValue.objWithType t) &&
      truthy (jsGetType (JsValue.objWithType t))) = true := by
    show (true && truthy t) = true
    simp [h]
  constructor
  · simp [OnTestClick, confirmCallback, h1]
  · simp [OnTestClick, confirmCallback, h1, isNotifyEvent, syncOrmCallEvent]

/-- Witness for claim C6 at the concrete action object. -/
theorem onTestClick_action_object_forwarded_unmodified_witness :
    truthy (JsValue.str "ir.actions.act_window") = true ∧
    (OnTestClick .confirm
        (.success (.objWithType (.str "ir.actions.act_window")))).events =
      [Event.dialogAdd confirmDialogTitle confirmDialogBody,
       syncOrmCallEvent,
       Event.doAction (.objWithType (.str "ir.actions.act_window")),
       Event.modelLoad, Event.render true] :=
  ⟨by decide,
    (onTestClick_action_object_forwarded_unmodified
      (.str "ir.actions.act_window") (by decide)).1⟩

/-- Claim C7: a rejected remote call propagates its error unchanged to the
caller of the confirm callback; no notification is shown, no model reload
and no render occur. -/
theorem onTestClick_remote_failure_propagates (e : String) :
    (OnTestClick .confirm (.failure e)).error = some e ∧
    (OnTestClick .confirm (.failure e)).events.filter isNotifyEvent = [] ∧
    Event.modelLoad ∉ (OnTestClick .confirm (.failure e)).events ∧
    ∀ b : Bool, Event.render b ∉ (OnTestClick .confirm (.failure e)).events := by
  refine ⟨rfl, rfl, ?_, ?_⟩
  · simp [OnTestClick, confirmCallback, syncOrmCallEvent]
  · intro b
    simp [OnTestClick, confirmCallback, syncOrmCallEvent]

/-- Claim C9: an object whose type field is present but falsy is not
forwarded to the action service; it falls through to the info branch (a
plain object coerces to NaN, so the numeric comparison also fails), and the
trace contains no action dispatch at all. -/
theorem onTestClick_falsy_type_not_forwarded (t : JsValue)
    (h : truthy t = false) :
    (OnTestClick .confirm (.success (.objWithType t))).events =
      [Event.dialogAdd confirmDialogTitle confirmDialogBody,
       syncOrmCallEvent,
       Event.notify "No new records were created for accrual." "info" "Info",
       Event.modelLoad, Event.render true] ∧
    ∀ a : JsValue, Event.doAction a ∉
      (OnTestClick .confirm (.success (.objWithType t))).events := by
  have h1 : (truthy (JsValue.objWithType t) &&
      truthy (jsGetType (JsValue.objWithType t))) = false := by
    show (true && truthy t) = false
    simp [h]
  have h2 : jsGtZero (JsValue.objWithType t) = false := rfl
  have he : (OnTestClick .confirm (.success (.objWithType t))).events =
      [Event.dialogAdd confirmDialogTitle confirmDialogBody,
       syncOrmCallEvent,
       Event.notify "No new records were created for accrual." "info" "Info",
       Event.modelLoad, Event.render true] := by
    simp [OnTestClick, confirmCallback, h1, h2]
  refine ⟨he, ?_⟩
  intro a
  rw [he]
  simp [syncOrmCallEvent]

/-- Witness for claim C9 at the object with an empty-string type field. -/
theorem onTestClick_falsy_type_not_forwarded_witness :
    truthy (JsValue.str "") = false ∧
    (OnTestClick .confirm (.success (.objWithType (.str "")))).events =
      [Event.dialogAdd confirmDialogTitle confirmDialogBody,
       syncOrmCallEvent,
       Event.notify "No new records were created for accrual." "info" "Info",
       Event.modelLoad, Event.render true] :=
  ⟨by decide,
    (onTestClick_falsy_type_not_forwarded (.str "") (by decide)).1⟩

/-!
Theorems about the fold controller.
-/

/-- Counting clicks: in a document whose element ids are distinct, mapping
ids over a filtered sublist counts each element's id once when the element
passes the filter and zero times otherwise. -/
theorem count_map_id_filter (p : Element → Bool) :
    ∀ (l : List Element), (l.map Element.id).Nodup → ∀ e ∈ l,
      ((l.filter p).map Element.id).count e.id = if p e then 1 else 0 := by
  intro l
  induction l with
  | nil =>
    intro _ e he
    exact absurd he (List.not_mem_nil e)
  | cons a tl ih =>
    intro hnd e he
    rw [List.map_cons, List.nodup_cons] at hnd
    obtain ⟨ha, htl⟩ := hnd
    rcases List.mem_cons.mp he with rfl | he'
    · have hzero : ((tl.filter p).map Element.id).count e.id = 0 := by
        rw [List.count_eq_zero]
        intro hmem
        obtain ⟨x, hx, hxid⟩ := List.mem_map.mp hmem
        exact ha (hxid ▸ List.mem_map_of_mem Element.id (List.mem_of_mem_filter hx))
      by_cases hp : p e = true
      · rw [List.filter_cons_of_pos hp, List.map_cons, List.count_cons_self,
          hzero, if_pos hp]
      · rw [List.filter_cons_of_neg hp, hzero,
          if_neg hp]
    · have hne : e.id ≠ a.id := by
        intro hEq
        exact ha (hEq ▸ List.mem_map_of_mem Element.id he')
      by_cases hp : p a = true
      · rw [List.filter_cons_of_pos hp, List.map_cons,
          List.count_cons_of_ne hne, ih htl e he']
      · rw [List.filter_cons_of_neg hp, ih htl e he']

/-- Claim C8: in a document with distinct element ids, unfoldAll clicks each
element exactly once when it passes the content selector and bears the
collapsed marker and never otherwise; foldAll is the exact dual, keyed on the
expanded marker; and with no matching header either operation dispatches no
click at all. -/
theorem unfoldAll_foldAll_click_counts (doc : List Element)
    (hnd : (doc.map Element.id).Nodup) :
    (∀ e ∈ doc,
      (onUnfoldAllClick doc).count e.id =
        (if hasDescendantClass "fa-caret-right" e && matchesGroupHeaderSel e
          then 1 else 0) ∧
      (onFoldAllClick doc).count e.id =
        (if hasDescendantClass "fa-caret-down" e && matchesGroupHeaderSel e
          then 1 else 0)) ∧
    ((∀ e ∈ doc,
        (hasDescendantClass "fa-caret-right" e && matchesGroupHeaderSel e) = false) →
      onUnfoldAllClick doc = []) ∧
    ((∀ e ∈ doc,
        (hasDescendantClass "fa-caret-down" e && matchesGroupHeaderSel e) = false) →
      onFoldAllClick doc = []) := by
  have hu : onUnfoldAllClick doc =
      (doc.filter fun e =>
        hasDescendantClass "fa-caret-right" e && matchesGroupHeaderSel e).map
          Element.id := by
    simp only [onUnfoldAllClick, querySelectorAllGroupHeaders, List.filter_filter]
  have hf : onFoldAllClick doc =
      (doc.filter fun e =>
        hasDescendantClass "fa-caret-down" e && matchesGroupHeaderSel e).map
          Element.id := by
    simp only [onFoldAllClick, querySelectorAllGroupHeaders, List.filter_filter]
  refine ⟨fun e he => ⟨?_, ?_⟩, fun hall => ?_, fun hall => ?_⟩
  · rw [hu]
    exact count_map_id_filter _ doc hnd e he
  · rw [hf]
    exact count_map_id_filter _ doc hnd e he
  · rw [hu, List.filter_eq_nil_iff.mpr fun a ha => by simp [hall a ha],
      List.map_nil]
  · rw [hf, List.filter_eq_nil_iff.mpr fun a ha => by simp [hall a ha],
      List.map_nil]

/-- Witness for claim C8 on the sample document: the collapsed
content-bearing header is clicked once by unfoldAll and the expanded one once
by foldAll. -/
theorem unfoldAll_foldAll_click_counts_witness :
    (sampleDoc.map Element.id).Nodup ∧
    (onUnfoldAllClick sampleDoc).count 0 = 1 ∧
    (onFoldAllClick sampleDoc).count 1 = 1 := by
  refine ⟨by decide, ?_, ?_⟩
  · have h0 := ((unfoldAll_foldAll_click_counts sampleDoc (by decide)).1
      sampleHeaderFolded (by decide)).1
    simpa using h0
  · have h1 := ((unfoldAll_foldAll_click_counts sampleDoc (by decide)).1
      sampleHeaderUnfolded (by decide)).2
    simpa using h1

/-- Claim C10: in a document with distinct element ids in which no group
header — no element matching the content selector; other elements, such as
common ancestors of a folded and an unfolded group, may well have both caret
classes among their descendants — bears both fold markers, no id clicked by
unfoldAll is also clicked by foldAll. -/
theorem unfold_fold_click_sets_disjoint (doc : List Element)
    (hnd : (doc.map Element.id).Nodup)
    (hx : ∀ e ∈ doc, matchesGroupHeaderSel e = true →
        ¬(hasDescendantClass "fa-caret-right" e = true ∧
          hasDescendantClass "fa-caret-down" e = true)) :
    ∀ x, x ∈ onUnfoldAllClick doc → x ∉ onFoldAllClick doc := by
  intro x hu hf
  simp only [onUnfoldAllClick] at hu
  simp only [onFoldAllClick] at hf
  obtain ⟨e, he, heid⟩ := List.mem_map.mp hu
  obtain ⟨f, hfmem, hfid⟩ := List.mem_map.mp hf
  have heSel : e ∈ querySelectorAllGroupHeaders doc := List.mem_of_mem_filter he
  have heDoc : e ∈ doc := List.mem_of_mem_filter heSel
  have hfDoc : f ∈ doc :=
    List.mem_of_mem_filter (List.mem_of_mem_filter hfmem)
  have hef : e = f :=
    List.inj_on_of_nodup_map hnd heDoc hfDoc (heid.trans hfid.symm)
  have hSel : matchesGroupHeaderSel e = true := List.of_mem_filter heSel
  have hR : hasDescendantClass "fa-caret-right" e = true := List.of_mem_filter he
  have hD : hasDescendantClass "fa-caret-down" f = true := List.of_mem_filter hfmem
  exact hx e heDoc hSel ⟨hR, hef ▸ hD⟩

/-- Witness for claim C10 on the mixed-state document, whose container
element has both caret classes among its descendants while each group header
has one: id 0 is clicked by unfoldAll and hence not by foldAll. -/
theorem unfold_fold_click_sets_disjoint_witness :
    (0:Nat) ∈ onUnfoldAllClick sampleDocMixed ∧
    (0:Nat) ∉ onFoldAllClick sampleDocMixed :=
  ⟨by decide,
    unfold_fold_click_sets_disjoint sampleDocMixed (by decide) (by decide) 0
      (by decide)⟩
